import Mathlib

/-!
Verification development for the IAA backtesting engine.

Shallow embedding of the parts of the repository the claims concern:

* `analyzer.get_strategy_data` — regime signal (200-day SMA, shifted one
  day), price returns, cost model, the three daily return series and the
  compounded portfolio-value paths (`cumprod` compounding, also used by
  `analyze_strategy_filtered` for re-based sub-windows);
* `margin.calculate_margin_strategy` — the day-by-day margin account
  state machine (year-boundary settlement, daily interest accrual,
  entry/exit transitions, equity recording);
* `lsc.analyze_lsc` / `lscda.analyze_lscda` — the monthly-to-daily
  conversion of the rotation-asset (small-cap) return.

Prices, rates and account balances are modelled as rationals (the Python
floats carry no float-specific semantics in the claims); a time series is
a function `ℕ → ℚ` indexed by trading day, instantiated on concrete data
via `List.getD`.  A pandas `NaN` regime value is modelled as `none` of an
`Option ℚ`.
-/

/-! ## analyzer.py: returns, cost model, regime signal, compounding -/

/-- `data['Simple_Ref'] = data['Close'].pct_change()` followed by
`fillna(0)` (analyzer.py lines 129-130): the first day's return is 0,
later days are `(close t - close (t-1)) / close (t-1)`.  (Division by a
zero previous close yields 0 here, matching the spec's stated fallback;
the data model guarantees positive closes.) -/
def priceReturn (close : ℕ → ℚ) (t : ℕ) : ℚ :=
  if t = 0 then 0 else (close t - close (t - 1)) / close (t - 1)

/-- `data['Total_Return_Daily'] = data['Simple_Ref'] + daily_dividend`
with `daily_dividend = 0` (analyzer.py lines 133-134). -/
def totalReturnDaily (close : ℕ → ℚ) (t : ℕ) : ℚ :=
  priceReturn close t + 0

/-- `data['Financing_Rate_Daily'] = 2 * (data['Fed_Funds_Rate'] / 100) / 252`
(analyzer.py line 156); `ffRate` is the (already filled) annual rate in
percent. -/
def financingRateDaily (ffRate : ℕ → ℚ) (t : ℕ) : ℚ :=
  2 * (ffRate t / 100) / 252

/-- `ETF_EXPENSE_RATIO_DAILY = 0.01 / 252` (analyzer.py lines 161-162). -/
def etfExpenseDaily : ℚ := (1 / 100) / 252

/-- `data['Strategy_1x_Daily'] = data['Total_Return_Daily']`
(analyzer.py line 168). -/
def strategy1xDaily (close : ℕ → ℚ) (t : ℕ) : ℚ :=
  totalReturnDaily close t

/-- `Strategy_3x_BH_Daily = (3*Total_Return_Daily - Financing_Rate_Daily -
ETF_EXPENSE_RATIO_DAILY).clip(lower=-1.0)` (analyzer.py lines 173-178). -/
def strategy3xBHDaily (close ffRate : ℕ → ℚ) (t : ℕ) : ℚ :=
  max (3 * totalReturnDaily close t - financingRateDaily ffRate t - etfExpenseDaily) (-1)

/-- `data['SMA_200'] = data['Close'].rolling(window=200).mean()`
(analyzer.py line 122): `none` (pandas `NaN`) while fewer than 200
observations exist, else the mean of the last 200 closes. -/
def sma200 (close : ℕ → ℚ) (t : ℕ) : Option ℚ :=
  if 200 ≤ t + 1 then some ((∑ j in Finset.range 200, close (t - j)) / 200) else none

/-- `data['Regime'] = np.where(data['Close'] > data['SMA_200'], 1, 0)`
(analyzer.py line 124): a `NaN` SMA compares false, so the regime is 0
there, never a third state. -/
def regimeRaw (close : ℕ → ℚ) (t : ℕ) : ℚ :=
  match sma200 close t with
  | some m => if m < close t then 1 else 0
  | none => 0

/-- `data['Regime'] = data['Regime'].shift(1)` (analyzer.py line 126):
day 0 becomes `NaN` (`none`), day `t ≥ 1` carries day `t-1`'s comparison. -/
def regimeShifted (close : ℕ → ℚ) (t : ℕ) : Option ℚ :=
  if t = 0 then none else some (regimeRaw close (t - 1))

/-- `Strategy_3x_Daily = np.where(Regime == 1, 3*Total_Return_Daily -
Financing_Rate_Daily - ETF_EXPENSE_RATIO_DAILY, 0).clip(lower=-1.0)`
(analyzer.py lines 182-187); a `NaN` regime compares false against 1. -/
def strategy3xDaily (close ffRate : ℕ → ℚ) (t : ℕ) : ℚ :=
  max (if regimeShifted close t = some 1 then
        3 * totalReturnDaily close t - financingRateDaily ffRate t - etfExpenseDaily
       else 0) (-1)

/-- `initial_capital = 10000` (analyzer.py line 165 and line 279). -/
def initialCapital : ℚ := 10000

/-- `initial_capital * (1 + returns).cumprod()` (analyzer.py lines 169,
179, 188 and, re-based over a sub-window, lines 282-284): entry `t` of the
portfolio-value path.  `cumprod` includes the first element, so
`growthVal init r 0 = init * (1 + r 0)`. -/
def growthVal (init : ℚ) (r : ℕ → ℚ) : ℕ → ℚ
  | 0 => init * (1 + r 0)
  | t + 1 => growthVal init r t * (1 + r (t + 1))

/-! ## margin.py: the margin account state machine -/

/-- The mutable simulation state of `margin.calculate_margin_strategy`
(margin.py lines 86-138): cash, debt, invested value, current margin
limit, the accrued-interest accumulator, the in-market flag, the running
calendar year and the CPI anchor for the trailing-year inflation. -/
structure MarginState where
  cash : ℚ
  debt : ℚ
  invested : ℚ
  marginLimit : ℚ
  accrued : ℚ
  inMarket : Bool
  currentYear : ℤ
  yearStartCpi : ℚ
  deriving Repr, DecidableEq

/-- One row of the merged daily frame consumed by the loop
(margin.py lines 122-126): calendar year of the date, regime signal
(`none` models pandas `NaN`), the long yield in percent, the CPI level and
the precomputed leveraged daily return `lev_returns[i]`. -/
structure MarginDay where
  year : ℤ
  regime : Option ℚ
  longYield : ℚ
  cpi : ℚ
  levRet : ℚ
  deriving Repr, DecidableEq

/-- `leveraged_daily_ret = (df['Total_Return_Daily'] * 3).clip(lower=-1.0)`
(margin.py line 117) — the daily return the margin simulator applies while
in the market, built from the same `Total_Return_Daily` column the
analyzer produced. -/
def marginLevRet (close : ℕ → ℚ) (t : ℕ) : ℚ :=
  max (3 * totalReturnDaily close t) (-1)

/-- `margin_add = 0.015` (margin.py line 88). -/
def marginAdd : ℚ := 15 / 1000

/-- The trailing-year inflation rate computed at a year boundary
(margin.py lines 156-160): `(year_end_cpi / year_start_cpi) - 1` when the
anchor is positive, else 0; `year_end_cpi` is the previous day's CPI. -/
def inflRate (st : MarginState) (prevCpi : ℚ) : ℚ :=
  if 0 < st.yearStartCpi then prevCpi / st.yearStartCpi - 1 else 0

/-- Step 1, year-change handling (margin.py lines 145-174): on a calendar
year change, scale the margin limit by `1 + inflation`, deduct the whole
accrued-interest accumulator from cash, reset it to 0, advance the running
year and move the CPI anchor to the previous day's CPI.  Identity
otherwise. -/
def yearSettle (st : MarginState) (d : MarginDay) (prevCpi : ℚ) : MarginState :=
  if d.year ≠ st.currentYear then
    { st with
      marginLimit := st.marginLimit * (1 + inflRate st prevCpi)
      cash := st.cash - st.accrued
      accrued := 0
      currentYear := d.year
      yearStartCpi := prevCpi }
  else st

/-- Step 2, daily interest accrual (margin.py lines 176-181):
`daily_rate_annual = (yields[i] + margin_add*100) / 100.0` and
`accrued += debt * (daily_rate_annual / 365.0)`, unconditionally —
in particular also while out of the market. -/
def accrueStep (st : MarginState) (d : MarginDay) : MarginState :=
  { st with accrued := st.accrued + st.debt * (((d.longYield + marginAdd * 100) / 100) / 365) }

/-- Step 3, the regime-driven transition (margin.py lines 184-273):
enter on signal 1 while out (debt becomes the margin limit, everything is
deployed unless the investable amount is negative), compound the invested
value on signal 1 while in, exit on any other signal while in (sell,
repay as much debt as the proceeds cover), and do nothing otherwise. -/
def tradeStep (st : MarginState) (d : MarginDay) : MarginState :=
  if d.regime = some 1 then
    if st.inMarket then
      { st with invested := st.invested * (1 + d.levRet) }
    else
      let debt := st.marginLimit
      let amt := st.cash + debt
      if amt < 0 then
        { st with debt := debt, invested := 0, cash := st.cash + debt, inMarket := true }
      else
        { st with debt := debt, invested := amt, cash := 0, inMarket := true }
  else
    if st.inMarket then
      let proceeds := st.invested
      if st.debt ≤ proceeds then
        { st with invested := 0, cash := proceeds - st.debt, debt := 0, inMarket := false }
      else
        { st with invested := 0, debt := st.debt - proceeds, cash := 0, inMarket := false }
    else st

/-- One full loop iteration (margin.py lines 140-282): year settlement,
then interest accrual, then the trade transition; `prevCpi` is
`cpis[i-1]`, read only when the year changes. -/
def dayStep (st : MarginState) (d : MarginDay) (prevCpi : ℚ) : MarginState :=
  tradeStep (accrueStep (yearSettle st d prevCpi) d) d

/-- `current_equity = (cash + invested_value) - debt` (margin.py
line 277), recorded for the day after the transition. -/
def equity (st : MarginState) : ℚ :=
  st.cash + st.invested - st.debt

/-- Initial simulation state (margin.py lines 87-138): everything zero,
`margin_limit = base_limit = 2000`, out of the market, running year and
CPI anchor taken from the first row. -/
def initState (d0 : MarginDay) : MarginState :=
  { cash := 0, debt := 0, invested := 0, marginLimit := 2000, accrued := 0,
    inMarket := false, currentYear := d0.year, yearStartCpi := d0.cpi }

/-- The loop body over the remaining rows, threading the previous day's
CPI. -/
def runFrom : MarginState → ℚ → List MarginDay → List MarginState
  | _, _, [] => []
  | st, prev, d :: rest =>
      let st1 := dayStep st d prev
      st1 :: runFrom st1 d.cpi rest

/-- The whole simulation `calculate_margin_strategy` (margin.py
lines 140-282), returning the per-day states whose fields are the
recorded equity/debt/cash/invested curves. -/
def runMargin (days : List MarginDay) : List MarginState :=
  match days with
  | [] => []
  | d0 :: _ => runFrom (initState d0) d0.cpi days

/-! ## lsc.py / lscda.py: rotation-asset monthly-to-daily conversion -/

/-- `TradingDays` after `fillna(21).replace(0, 1)` (lsc.py lines 54-57,
lscda.py line 53): a missing month count (`none`) becomes 21, an observed
count of 0 becomes 1, any other observed count is kept. -/
def tradingDaysAdj (obs : Option ℚ) : ℚ :=
  match obs with
  | none => 21
  | some d => if d = 0 then 1 else d

/-- `SC_Daily_Ret = (1 + Small_Value_Ret) ** (1 / TradingDays) - 1`
(lsc.py line 59, lscda.py line 56), as a real power. -/
noncomputable def scDailyRet (monthly days : ℚ) : ℝ :=
  (1 + (monthly : ℝ)) ^ ((1 : ℝ) / (days : ℝ)) - 1

/-! ## Concrete fixtures used to instantiate the theorems -/

/-- An in-market state carrying 100 of debt against 40 of invested value. -/
def stExit : MarginState :=
  { cash := 5, debt := 100, invested := 40, marginLimit := 2000, accrued := 2,
    inMarket := true, currentYear := 2000, yearStartCpi := 10 }

/-- A risk-off day in the same calendar year as `stExit`. -/
def dExit : MarginDay :=
  { year := 2000, regime := some 0, longYield := 5, cpi := 10, levRet := 0 }

/-- An out-of-market state with some residual cash and leftover debt. -/
def stEnter : MarginState :=
  { cash := 30, debt := 50, invested := 0, marginLimit := 2000, accrued := 0,
    inMarket := false, currentYear := 2000, yearStartCpi := 10 }

/-- A risk-on day in the same calendar year as `stEnter`. -/
def dEnter : MarginDay :=
  { year := 2000, regime := some 1, longYield := 5, cpi := 10, levRet := 0 }

/-- The interest-accrual scenario state: debt 2000, out of market. -/
def stAccr : MarginState :=
  { cash := 0, debt := 2000, invested := 0, marginLimit := 2000, accrued := 0,
    inMarket := false, currentYear := 1970, yearStartCpi := 100 }

/-- The interest-accrual scenario day: long yield 5 (percent), same year. -/
def dAccr : MarginDay :=
  { year := 1970, regime := some 0, longYield := 5, cpi := 100, levRet := 0 }

/-- A day in the year after `stAccr`, triggering the year settlement. -/
def dNewYear : MarginDay :=
  { year := 1971, regime := some 0, longYield := 5, cpi := 110, levRet := 0 }

/-- A two-day price series, prices 100 then 101. -/
def closeA : ℕ → ℚ := fun t => ([100, 101].getD t 0 : ℚ)

/-- A two-day price series with a 40% crash on day 1. -/
def closeB : ℕ → ℚ := fun t => ([100, 60].getD t 0 : ℚ)

/-- A constant 5% annual Fed-Funds-rate series. -/
def ffA : ℕ → ℚ := fun _ => 5

/-- A 201-day price series: 199 days at 100, then two days at 300, so the
regime signal (shifted SMA-200 comparison) is 1 on day 200. -/
def closeD : ℕ → ℚ := fun t => if t < 199 then 100 else if t < 201 then 300 else 0

/-! ## Claims about the margin state machine transitions -/

/-- Claim C1: on a day whose regime signal is 0 while the account is in
the market and the sale proceeds (the invested value) are strictly less
than the debt, the post-transition state has cash 0, invested 0, debt
reduced by exactly the proceeds, and the recorded equity for that day
equals minus the remaining debt. -/
theorem margin_exit_partial_repayment (st : MarginState) (d : MarginDay) (prevCpi : ℚ)
    (hin : st.inMarket = true) (hsig : d.regime = some 0)
    (hlt : st.invested < st.debt) :
    (dayStep st d prevCpi).cash = 0 ∧ (dayStep st d prevCpi).invested = 0 ∧
    (dayStep st d prevCpi).debt = st.debt - st.invested ∧
    equity (dayStep st d prevCpi) = -(dayStep st d prevCpi).debt := by
  have hns : ¬ d.regime = some 1 := by simp [hsig]
  have hnle : ¬ st.debt ≤ st.invested := not_le.mpr hlt
  unfold dayStep tradeStep accrueStep yearSettle equity
  by_cases hy : d.year ≠ st.currentYear <;>
    simp [hy, hns, hin, hnle]

/-- Witness for C1 at a concrete state: debt 100, invested 40, the exit
leaves cash 0, invested 0, debt 60 and equity −60. -/
theorem margin_exit_partial_repayment_witness :
    (stExit.inMarket = true ∧ dExit.regime = some 0 ∧ stExit.invested < stExit.debt) ∧
    ((dayStep stExit dExit 10).cash = 0 ∧ (dayStep stExit dExit 10).invested = 0 ∧
     (dayStep stExit dExit 10).debt = stExit.debt - stExit.invested ∧
     equity (dayStep stExit dExit 10) = -(dayStep stExit dExit 10).debt) :=
  ⟨⟨rfl, rfl, by norm_num [stExit]⟩,
   margin_exit_partial_repayment stExit dExit 10 rfl rfl (by norm_num [stExit])⟩

/-- Claim C2: the entry transition (signal 1 while out of the market)
sets debt to exactly the current margin limit, and whenever
`cash + margin_limit ≥ 0` at that moment it invests the full
`cash + margin_limit` and zeroes the cash. -/
theorem margin_entry_debt_and_deploy (st : MarginState) (d : MarginDay)
    (hout : st.inMarket = false) (hsig : d.regime = some 1) :
    (tradeStep st d).debt = st.marginLimit ∧
    (0 ≤ st.cash + st.marginLimit →
      (tradeStep st d).invested = st.cash + st.marginLimit ∧ (tradeStep st d).cash = 0) := by
  constructor
  · by_cases hneg : st.cash + st.marginLimit < 0 <;> simp [tradeStep, hsig, hout, hneg]
  · intro h
    have hneg : ¬ st.cash + st.marginLimit < 0 := not_lt.mpr h
    simp [tradeStep, hsig, hout, hneg]

/-- Witness for C2 at a concrete state: cash 30, margin limit 2000; entry
sets debt 2000, invested 2030, cash 0. -/
theorem margin_entry_debt_and_deploy_witness :
    (stEnter.inMarket = false ∧ dEnter.regime = some 1 ∧
      (0 : ℚ) ≤ stEnter.cash + stEnter.marginLimit) ∧
    ((tradeStep stEnter dEnter).debt = stEnter.marginLimit ∧
      (tradeStep stEnter dEnter).invested = stEnter.cash + stEnter.marginLimit ∧
      (tradeStep stEnter dEnter).cash = 0) :=
  ⟨⟨rfl, rfl, by norm_num [stEnter]⟩, by
    obtain ⟨h1, h2⟩ := margin_entry_debt_and_deploy stEnter dEnter rfl rfl
    exact ⟨h1, h2 (by norm_num [stEnter])⟩⟩

/-- Claim C10: re-entering the market while still carrying leftover debt
overwrites the debt with the margin limit (rather than adding the
outstanding balance), so the recorded equity jumps up by exactly the old
debt across the entry transition. -/
theorem margin_reentry_forgives_debt (st : MarginState) (d : MarginDay)
    (hout : st.inMarket = false) (hsig : d.regime = some 1)
    (hdebt : 0 < st.debt) (hinv : st.invested = 0) :
    (tradeStep st d).debt = st.marginLimit ∧
    equity (tradeStep st d) = equity st + st.debt := by
  unfold tradeStep equity
  by_cases hneg : st.cash + st.marginLimit < 0 <;> simp [hsig, hout, hneg, hinv]

/-- Witness for C10 at a concrete state: leftover debt 50 is replaced by
the 2000 margin limit and equity rises by 50. -/
theorem margin_reentry_forgives_debt_witness :
    (stEnter.inMarket = false ∧ dEnter.regime = some 1 ∧
      (0 : ℚ) < stEnter.debt ∧ stEnter.invested = 0) ∧
    ((tradeStep stEnter dEnter).debt = stEnter.marginLimit ∧
      equity (tradeStep stEnter dEnter) = equity stEnter + stEnter.debt) :=
  ⟨⟨rfl, rfl, by norm_num [stEnter], rfl⟩,
   margin_reentry_forgives_debt stEnter dEnter rfl rfl (by norm_num [stEnter]) rfl⟩

/-- The trade transition never touches the accrued-interest accumulator. -/
theorem tradeStep_accrued (st : MarginState) (d : MarginDay) :
    (tradeStep st d).accrued = st.accrued := by
  simp only [tradeStep]
  split_ifs <;> rfl

/-- The trade transition never touches the margin limit. -/
theorem tradeStep_marginLimit (st : MarginState) (d : MarginDay) :
    (tradeStep st d).marginLimit = st.marginLimit := by
  simp only [tradeStep]
  split_ifs <;> rfl

/-- Claim C8: on every day (here: any day that is not a year boundary,
where the accumulator is first settled), and regardless of whether the
account is in or out of the market, the accrued-interest accumulator
grows by `debt × ((long_yield + 1.5)/100/365)`; at long yield 5, spread
1.5 and debt 2000 the day's accrual is `130/365 ≈ 0.3562`. -/
theorem margin_daily_interest_accrual (st : MarginState) (d : MarginDay) (prevCpi : ℚ)
    (hy : d.year = st.currentYear) :
    (dayStep st d prevCpi).accrued
      = st.accrued + st.debt * (((d.longYield + marginAdd * 100) / 100) / 365) ∧
    (dayStep stAccr dAccr 100).accrued = 130 / 365 ∧
    |(130 : ℚ) / 365 - 3562 / 10000| < 1 / 10000 := by
  refine ⟨?_, ?_, by norm_num [abs]⟩
  · have h1 : yearSettle st d prevCpi = st := by simp [yearSettle, hy]
    unfold dayStep
    rw [h1, tradeStep_accrued]
    rfl
  · norm_num [dayStep, tradeStep, accrueStep, yearSettle, stAccr, dAccr, marginAdd]

/-- Witness for C8 at the concrete scenario state (debt 2000, yield 5,
spread 1.5, out of market): the accumulator grows by exactly 130/365. -/
theorem margin_daily_interest_accrual_witness :
    dAccr.year = stAccr.currentYear ∧
    (dayStep stAccr dAccr 100).accrued
      = stAccr.accrued + stAccr.debt * (((dAccr.longYield + marginAdd * 100) / 100) / 365) :=
  ⟨rfl, (margin_daily_interest_accrual stAccr dAccr 100 rfl).1⟩

/-- Claim C9: the margin limit changes only at calendar-year boundaries,
where it is scaled by `1 + trailing-year inflation`; at the same boundary
the full accrued-interest accumulator is deducted from cash and reset
to 0.  On any day within the running year the limit is unchanged. -/
theorem margin_limit_only_at_year_boundary (st : MarginState) (d : MarginDay) (prevCpi : ℚ) :
    (d.year = st.currentYear → (dayStep st d prevCpi).marginLimit = st.marginLimit) ∧
    (d.year ≠ st.currentYear →
      (dayStep st d prevCpi).marginLimit = st.marginLimit * (1 + inflRate st prevCpi) ∧
      (yearSettle st d prevCpi).cash = st.cash - st.accrued ∧
      (yearSettle st d prevCpi).accrued = 0 ∧
      (yearSettle st d prevCpi).marginLimit = st.marginLimit * (1 + inflRate st prevCpi)) := by
  constructor
  · intro h
    unfold dayStep
    rw [tradeStep_marginLimit]
    simp [accrueStep, yearSettle, h]
  · intro h
    have hm : (dayStep st d prevCpi).marginLimit = st.marginLimit * (1 + inflRate st prevCpi) := by
      unfold dayStep
      rw [tradeStep_marginLimit]
      simp [accrueStep, yearSettle, h]
    exact ⟨hm, by simp [yearSettle, h], by simp [yearSettle, h], by simp [yearSettle, h]⟩

/-- Witness for C9: a same-year day leaves the limit at 2000, while a
year-boundary day rescales it by the trailing CPI change and settles the
interest accumulator. -/
theorem margin_limit_only_at_year_boundary_witness :
    (dAccr.year = stAccr.currentYear ∧
      (dayStep stAccr dAccr 100).marginLimit = stAccr.marginLimit) ∧
    (dNewYear.year ≠ stAccr.currentYear ∧
      (dayStep stAccr dNewYear 105).marginLimit = stAccr.marginLimit * (1 + inflRate stAccr 105) ∧
      (yearSettle stAccr dNewYear 105).cash = stAccr.cash - stAccr.accrued ∧
      (yearSettle stAccr dNewYear 105).accrued = 0 ∧
      (yearSettle stAccr dNewYear 105).marginLimit
        = stAccr.marginLimit * (1 + inflRate stAccr 105)) :=
  ⟨⟨rfl, (margin_limit_only_at_year_boundary stAccr dAccr 100).1 rfl⟩,
   ⟨by decide, (margin_limit_only_at_year_boundary stAccr dNewYear 105).2 (by decide)⟩⟩

/-! ## Claims about returns and compounding -/

/-- Claim C3 (amended): every compounded portfolio-value path satisfies
the recursion `growth(t) = growth(t-1) * (1 + r(t))` for `t ≥ 1`, but the
first entry is `initial_capital * (1 + r(first))` — `cumprod` includes
the first day's return — so it equals the initial capital only when the
first day's return is 0. -/
theorem growth_recursion (init : ℚ) (r : ℕ → ℚ) (t : ℕ) (ht : 1 ≤ t) :
    growthVal init r t = growthVal init r (t - 1) * (1 + r t) ∧
    growthVal init r 0 = init * (1 + r 0) := by
  obtain ⟨s, rfl⟩ : ∃ s, t = s + 1 := ⟨t - 1, (Nat.succ_pred_eq_of_pos ht).symm⟩
  exact ⟨rfl, rfl⟩

/-- Witness for C3 on the concrete two-day 1x path from `closeA`. -/
theorem growth_recursion_witness :
    1 ≤ 1 ∧
    (growthVal initialCapital (strategy1xDaily closeA) 1
        = growthVal initialCapital (strategy1xDaily closeA) (1 - 1)
            * (1 + strategy1xDaily closeA 1) ∧
      growthVal initialCapital (strategy1xDaily closeA) 0
        = initialCapital * (1 + strategy1xDaily closeA 0)) :=
  ⟨le_rfl, growth_recursion initialCapital (strategy1xDaily closeA) 1 le_rfl⟩

/-- Counterexample to C3 as stated: on the 3x buy-and-hold path over
`closeA` (with a 5% financing rate), the first day's value is
`10000 * (1 - 11/25200)`, not the initial capital 10000. -/
theorem growth_first_day_not_initial :
    growthVal initialCapital (strategy3xBHDaily closeA ffA) 0 ≠ initialCapital := by
  norm_num [growthVal, strategy3xBHDaily, totalReturnDaily, priceReturn, financingRateDaily,
    etfExpenseDaily, closeA, ffA, max_def, initialCapital]

/-- Claim C4 (amended): on a day with positive total cost and with the
gross leveraged return above the −100% floor, the always-on leveraged
strategy return is strictly below `3 × price_return`; when the −1.0 clip
binds the recorded return is −1, which can exceed `3 × price_return`. -/
theorem leveraged_return_below_3x (close ffRate : ℕ → ℚ) (t : ℕ)
    (hc : 0 < financingRateDaily ffRate t + etfExpenseDaily)
    (hfloor : -1 < 3 * totalReturnDaily close t) :
    strategy3xBHDaily close ffRate t < 3 * totalReturnDaily close t := by
  unfold strategy3xBHDaily
  exact max_lt (by linarith) hfloor

/-- Witness for C4 on day 1 of `closeA` (1% price move, 5% rate). -/
theorem leveraged_return_below_3x_witness :
    (0 < financingRateDaily ffA 1 + etfExpenseDaily ∧
      (-1 : ℚ) < 3 * totalReturnDaily closeA 1) ∧
    strategy3xBHDaily closeA ffA 1 < 3 * totalReturnDaily closeA 1 :=
  ⟨⟨by norm_num [financingRateDaily, etfExpenseDaily, ffA],
    by norm_num [totalReturnDaily, priceReturn, closeA]⟩,
   leveraged_return_below_3x closeA ffA 1
     (by norm_num [financingRateDaily, etfExpenseDaily, ffA])
     (by norm_num [totalReturnDaily, priceReturn, closeA])⟩

/-- Counterexample to C4 as stated: on a −40% day (`closeB`) the clipped
leveraged return is −1, which is NOT below `3 × price_return = −1.2`,
although the day's costs are positive. -/
theorem leveraged_return_clip_counterexample :
    0 < financingRateDaily ffA 1 + etfExpenseDaily ∧
    ¬ strategy3xBHDaily closeB ffA 1 < 3 * totalReturnDaily closeB 1 := by
  norm_num [strategy3xBHDaily, totalReturnDaily, priceReturn, financingRateDaily,
    etfExpenseDaily, closeB, ffA, max_def]

/-- Claim C7: the regime value any downstream return computation consumes
for day `t ≥ 1` is day `t-1`'s close-versus-SMA comparison (1 exactly
when the SMA exists and the close exceeds it); day 0's shifted signal is
undefined and is treated as 0 (risk-off) both by the analyzer's
regime-filtered return and by the margin simulator's transition. -/
theorem regime_consumed_is_previous_day (close ffRate : ℕ → ℚ) (t : ℕ) (ht : 1 ≤ t) :
    (strategy3xDaily close ffRate t =
      if regimeRaw close (t - 1) = 1 then
        max (3 * totalReturnDaily close t - financingRateDaily ffRate t - etfExpenseDaily) (-1)
      else 0) ∧
    (regimeRaw close (t - 1) = 1 ↔
      ∃ m, sma200 close (t - 1) = some m ∧ m < close (t - 1)) ∧
    strategy3xDaily close ffRate 0 = 0 ∧
    (∀ (st : MarginState) (d : MarginDay), d.regime = none →
      tradeStep st d = tradeStep st { d with regime := some 0 }) := by
  have h0 : t ≠ 0 := by omega
  refine ⟨?_, ?_, ?_, ?_⟩
  · unfold strategy3xDaily regimeShifted
    by_cases hr : regimeRaw close (t - 1) = 1 <;> simp [h0, hr]
  · unfold regimeRaw
    cases hs : sma200 close (t - 1) with
    | none => simp
    | some m => by_cases hlt : m < close (t - 1) <;> simp [hlt]
  · unfold strategy3xDaily regimeShifted
    simp
  · intro st d hd
    unfold tradeStep
    simp [hd]

/-- Witness for C7 at `t = 1` on the concrete series `closeA` (too short
for an SMA, so the consumed signal is day 0's comparison, which is 0). -/
theorem regime_consumed_is_previous_day_witness :
    1 ≤ 1 ∧
    ((strategy3xDaily closeA ffA 1 =
      if regimeRaw closeA (1 - 1) = 1 then
        max (3 * totalReturnDaily closeA 1 - financingRateDaily ffA 1 - etfExpenseDaily) (-1)
      else 0) ∧
     (regimeRaw closeA (1 - 1) = 1 ↔
       ∃ m, sma200 closeA (1 - 1) = some m ∧ m < closeA (1 - 1)) ∧
     strategy3xDaily closeA ffA 0 = 0 ∧
     (∀ (st : MarginState) (d : MarginDay), d.regime = none →
       tradeStep st d = tradeStep st { d with regime := some 0 })) :=
  ⟨le_rfl, regime_consumed_is_previous_day closeA ffA 1 le_rfl⟩

/-- The 200-day rolling sum of `closeD` ending at day 199: one day at 300
plus 199 days at 100. -/
theorem closeD_sum : (∑ j in Finset.range 200, closeD (199 - j)) = 20200 := by
  have hstep : ∀ j ∈ Finset.range 200, closeD (199 - j) = if j = 0 then 300 else 100 := by
    intro j hj
    rcases Nat.eq_zero_or_pos j with h | h
    · subst h; norm_num [closeD]
    · have h1 : 199 - j < 199 := by omega
      have h2 : j ≠ 0 := by omega
      simp [closeD, h1, h2]
  rw [Finset.sum_congr rfl hstep]
  have hsplit : ∀ j : ℕ, (if j = 0 then (300:ℚ) else 100) = 100 + (if j = 0 then 200 else 0) := by
    intro j; split_ifs <;> norm_num
  simp_rw [hsplit]
  rw [Finset.sum_add_distrib, Finset.sum_const,
    Finset.sum_ite_eq' (Finset.range 200) 0 (fun _ => (200:ℚ))]
  norm_num

/-- On day 200 of `closeD` the shifted regime signal is risk-on: day
199's close (300) exceeds day 199's SMA-200 (101). -/
theorem closeD_regime : regimeShifted closeD 200 = some 1 := by
  unfold regimeShifted regimeRaw sma200
  rw [if_neg (by norm_num)]
  norm_num [closeD_sum]
  norm_num [closeD]

/-- Claim C5 (amended): the daily return the margin simulator applies
while in the market is `3 × price_return` clipped at −1, with NO
financing or expense deduction; on any regime-on day where the clip does
not bind it exceeds the ReturnModel's regime-filtered leveraged return by
exactly the day's financing-plus-expense cost, so the two series are not
the same. -/
theorem margin_return_omits_costs (close ffRate : ℕ → ℚ) (t : ℕ)
    (hreg : regimeShifted close t = some 1)
    (hfin : 0 ≤ financingRateDaily ffRate t)
    (hfloor : -1 ≤ 3 * totalReturnDaily close t - financingRateDaily ffRate t - etfExpenseDaily) :
    marginLevRet close t - strategy3xDaily close ffRate t
      = financingRateDaily ffRate t + etfExpenseDaily := by
  unfold marginLevRet strategy3xDaily
  rw [if_pos hreg]
  have he : (0:ℚ) < etfExpenseDaily := by norm_num [etfExpenseDaily]
  have h1 : (-1:ℚ) ≤ 3 * totalReturnDaily close t := by linarith
  rw [max_eq_left hfloor, max_eq_left h1]
  ring

/-- Witness for C5 on day 200 of `closeD` (flat price, 5% rate): the
margin simulator's return is higher by `11/25200`. -/
theorem margin_return_omits_costs_witness :
    (regimeShifted closeD 200 = some 1 ∧
      0 ≤ financingRateDaily ffA 200 ∧
      (-1:ℚ) ≤ 3 * totalReturnDaily closeD 200 - financingRateDaily ffA 200 - etfExpenseDaily) ∧
    marginLevRet closeD 200 - strategy3xDaily closeD ffA 200
      = financingRateDaily ffA 200 + etfExpenseDaily :=
  ⟨⟨closeD_regime, by norm_num [financingRateDaily, ffA],
    by norm_num [totalReturnDaily, priceReturn, closeD, financingRateDaily, ffA,
      etfExpenseDaily]⟩,
   margin_return_omits_costs closeD ffA 200 closeD_regime
     (by norm_num [financingRateDaily, ffA])
     (by norm_num [totalReturnDaily, priceReturn, closeD, financingRateDaily, ffA,
       etfExpenseDaily])⟩

/-- Counterexample to C5 as stated: on day 200 of `closeD` (a regime-on
day) the margin simulator's applied return (0) differs from the
regime-filtered leveraged return (−11/25200). -/
theorem margin_return_differs_counterexample :
    regimeShifted closeD 200 = some 1 ∧
    marginLevRet closeD 200 ≠ strategy3xDaily closeD ffA 200 := by
  refine ⟨closeD_regime, ?_⟩
  unfold marginLevRet strategy3xDaily
  rw [if_pos closeD_regime]
  norm_num [totalReturnDaily, priceReturn, closeD, financingRateDaily, ffA,
    etfExpenseDaily, max_def]

/-- Exact rational bounds on the 5%-per-month, 21-trading-day
daily-equivalent return: `(1.05)^(1/21) - 1` lies strictly between
0.002325 and 0.002331 (so it is 0.002327 to within 4·10⁻⁶). -/
theorem scDailyRet_21_bounds :
    (2325/1000000 : ℝ) < scDailyRet (5/100) 21 ∧ scDailyRet (5/100) 21 < (2331/1000000 : ℝ) := by
  unfold scDailyRet
  have h1 : (1 + ((5/100 : ℚ) : ℝ)) = 21/20 := by push_cast; norm_num
  have h2 : (((21 : ℚ)) : ℝ) = 21 := by norm_num
  rw [h1, h2]
  set x := (21/20 : ℝ) ^ ((1 : ℝ)/21) with hxdef
  have hxpos : 0 < x := Real.rpow_pos_of_pos (by norm_num) _
  have hx21 : x ^ (21 : ℕ) = 21/20 := by
    rw [hxdef, ← Real.rpow_natCast ((21/20 : ℝ) ^ ((1 : ℝ)/21)) 21, ← Real.rpow_mul (by norm_num)]
    norm_num
  constructor
  · have hlow : (1002325/1000000 : ℝ) ^ (21 : ℕ) < x ^ (21 : ℕ) := by
      rw [hx21]; norm_num
    have := (pow_lt_pow_iff_left₀ (by norm_num : (0:ℝ) ≤ 1002325/1000000) hxpos.le
      (by norm_num : (21:ℕ) ≠ 0)).mp hlow
    linarith
  · have hhigh : x ^ (21 : ℕ) < (1002331/1000000 : ℝ) ^ (21 : ℕ) := by
      rw [hx21]; norm_num
    have := (pow_lt_pow_iff_left₀ hxpos.le (by norm_num : (0:ℝ) ≤ 1002331/1000000)
      (by norm_num : (21:ℕ) ≠ 0)).mp hhigh
    linarith

/-- Claim C6 (amended): the daily-equivalent rotation return is
`(1+monthly)^(1/n) - 1` where `n` is the adjusted trading-day count:
a month with an UNKNOWN count defaults to 21, but a month with an
observed count of ZERO is replaced by 1 (not 21); the adjusted count is
never 0, so no division by zero occurs, and the concrete 5%/21-day
scenario gives ≈ 0.002327 (strictly between 0.002325 and 0.002331). -/
theorem rotation_daily_equivalent :
    (∀ obs : Option ℚ, tradingDaysAdj obs ≠ 0) ∧
    tradingDaysAdj none = 21 ∧
    tradingDaysAdj (some 0) = 1 ∧
    (2325/1000000 : ℝ) < scDailyRet (5/100) 21 ∧
    scDailyRet (5/100) 21 < (2331/1000000 : ℝ) := by
  refine ⟨?_, rfl, by norm_num [tradingDaysAdj], scDailyRet_21_bounds.1, scDailyRet_21_bounds.2⟩
  intro obs
  cases obs with
  | none => norm_num [tradingDaysAdj]
  | some d => by_cases hd : d = 0 <;> simp [tradingDaysAdj, hd]

/-- Counterexample to C6 as stated: a month with zero observed trading
days gets count 1, not the claimed default 21, and the resulting
daily-equivalent return (the monthly return itself, 5%) differs from the
21-day value (≈ 0.23%). -/
theorem rotation_zero_days_counterexample :
    tradingDaysAdj (some 0) ≠ 21 ∧
    scDailyRet (5/100) (tradingDaysAdj (some 0)) = 5/100 ∧
    scDailyRet (5/100) (tradingDaysAdj (some 0)) ≠ scDailyRet (5/100) 21 := by
  have hadj : tradingDaysAdj (some 0) = 1 := by norm_num [tradingDaysAdj]
  have h1 : scDailyRet (5/100) 1 = 5/100 := by
    unfold scDailyRet
    norm_num
  refine ⟨by rw [hadj]; norm_num, by rw [hadj, h1], ?_⟩
  rw [hadj, h1]
  intro hcon
  have hb := scDailyRet_21_bounds.2
  rw [← hcon] at hb
  norm_num at hb
